import Mathlib

/-!
Verification of the nomination lifecycle manager of the talent-pool cog
(`bot/cogs/watchchannels/talentpool.py`) and the site-rules command
(`bot/cogs/site.py`).

The embedding models each command body as a pure function from the system
state (remote nomination store, watch-set cache) and a network oracle
(which store calls succeed or fail, and with which HTTP status) to a
result, a new system state, and a trace of the store calls issued.
-/

namespace TalentPool

/-- A nomination record, as stored by the remote nomination store
(spec section 3).  Timestamps are kept as opaque strings, as the code
treats them (it only passes them to a formatting helper). -/
structure Nomination where
  id : Nat
  user : Nat
  actor : Nat
  reason : String
  active : Bool
  insertedAt : String
  endedAt : String
  endReason : String
deriving DecidableEq, Repr

/-- The watch-set cache `self.watched_users`: a mapping from user id to
the cached active-nomination record, modelled as an association list. -/
abbrev Cache := List (Nat × Nomination)

/-- `user.id in self.watched_users` (talentpool.py line 71). -/
def Cache.contains (c : Cache) (uid : Nat) : Bool :=
  c.any (fun p => p.1 == uid)

/-- `self.watched_users[user.id] = response_data` (talentpool.py line 95):
Python dict assignment, overwriting an existing entry. -/
def Cache.insert (c : Cache) (uid : Nat) (n : Nomination) : Cache :=
  if c.any (fun p => p.1 == uid) then
    c.map (fun p => if p.1 == uid then (uid, n) else p)
  else
    c ++ [(uid, n)]

/-- Modelled from the spec: `_remove_user` lives in the `WatchChannel`
base class, which is not part of this excerpt.  Spec section 4.1:
`remove(user_id)` evicts the entry for that user. -/
def Cache.remove (c : Cache) (uid : Nat) : Cache :=
  c.filter (fun p => p.1 != uid)

/-- The system state: the remote store's records, the in-memory cache,
and the next id the store will assign on creation. -/
structure Sys where
  store : List Nomination
  cache : Cache
  nextId : Nat
deriving DecidableEq, Repr

/-- The command's `user` argument: a `Member`, `User` or proxy user.
`isMember` is `isinstance(user, Member)`; `roles` is the member's role
ids (meaningful only for members). -/
structure UserArg where
  id : Nat
  isBot : Bool
  isMember : Bool
  roles : List Nat
deriving DecidableEq, Repr

/-- `isinstance(user, Member) and any(role.id in STAFF_ROLES for role in
user.roles)` (talentpool.py line 63).  The staff role ids come from
`bot.constants`, which is outside this excerpt, so they are passed in. -/
def isStaff (staffRoles : List Nat) (u : UserArg) : Bool :=
  u.isMember && u.roles.any (fun r => staffRoles.contains r)

/-- A field of the JSON payload of a PATCH request. -/
inductive PatchField where
  | reasonField (v : String)
  | endReasonField (v : String)
  | activeField (b : Bool)
deriving DecidableEq, Repr

/-- A store call issued by an operation, in order. -/
inductive StoreCall where
  /-- The cache refresh: GET of all active nominations. -/
  | listActiveAll
  /-- POST to bot/nominations with `{actor, reason, user}`. -/
  | createNomination (actor : Nat) (user : Nat) (reason : String)
  /-- GET of the active nominations filtered by user id (unwatch). -/
  | listActiveFor (user : Nat)
  /-- GET of a single nomination by id (edit). -/
  | fetchById (id : Nat)
  /-- PATCH of a nomination with the given JSON fields. -/
  | patchFields (id : Nat) (fields : List PatchField)
deriving DecidableEq, Repr

def StoreCall.isCreate : StoreCall → Bool
  | .createNomination _ _ _ => true
  | _ => false

def StoreCall.isFetch : StoreCall → Bool
  | .fetchById _ => true
  | _ => false

/-- The user-visible outcome of `watch_command`. -/
inductive WatchResult where
  /-- "I only watch humans." -/
  | refusedBot
  /-- "Nominating staff members, eh?" -/
  | refusedStaff
  /-- "Failed to update the user cache." -/
  | cacheRefreshFailed
  /-- "The specified user is already being watched." -/
  | alreadyWatched
  /-- "The specified user can't be found in the database tables." -/
  | userNotFoundInDb
  /-- An uncaught `ResponseCodeError` / `raise_for_status` with this status. -/
  | httpError (status : Nat)
  /-- "Messages sent by ... will now be relayed." -/
  | watched
deriving DecidableEq, Repr

/-- The POST response as the code sees it: HTTP status, whether the JSON
body has a truthy `user` key, and the record parsed from the body
(meaningful on success, where the body is the created record). -/
structure CreateResponse where
  status : Nat
  bodyHasUserField : Bool
  record : Nomination
deriving DecidableEq, Repr

/-- Network oracle for the create POST: either the store accepts the
record, or it answers with an error status `400 + statusOffset`
(HTTP error statuses are at least 400) whose body may carry a `user`
field error. -/
inductive CreateNet where
  | ok
  | err (statusOffset : Nat) (bodyHasUserField : Bool)
deriving DecidableEq, Repr

/-- Network oracle for one `watch_command` invocation. -/
structure NetWatch where
  refreshOk : Bool
  create : CreateNet
deriving DecidableEq, Repr

/-- Modelled from the spec: `fetch_user_cache` lives in the
`WatchChannel` base class, which is not part of this excerpt.  Spec
section 4.1: `refresh()` re-fetches the set of currently-active
nominations and replaces the cache contents; on failure the prior cache
state is left intact.  The cache is keyed by user id. -/
def refreshedCache (store : List Nomination) : Cache :=
  (store.filter (fun n => n.active)).map (fun n => (n.user, n))

/-- The record the store creates for a successful POST (spec section 6:
`CREATE /nominations {actor, reason, user} → record`). -/
def createdRecord (σ : Sys) (actorId : Nat) (u : UserArg) (reason ts : String) :
    Nomination :=
  { id := σ.nextId, user := u.id, actor := actorId, reason := reason,
    active := true, insertedAt := ts, endedAt := "", endReason := "" }

/-- Lines 86-96 of talentpool.py: inspect the POST response.
`resp.status == 400 and response_data.get('user', False)` gives the soft
"not in database" outcome; otherwise `resp.raise_for_status()` raises
exactly when the status is at least 400; otherwise the returned record
is inserted into the cache. -/
def watchCreateHandle (cache1 : Cache) (uid : Nat) (resp : CreateResponse) :
    WatchResult × Cache :=
  if resp.status == 400 && resp.bodyHasUserField then
    (.userNotFoundInDb, cache1)
  else if 400 ≤ resp.status then
    (.httpError resp.status, cache1)
  else
    (.watched, Cache.insert cache1 uid resp.record)

/-- `watch_command` (talentpool.py lines 52-96): bot check, staff check,
cache refresh (fail-closed), conflict check against the cache, then the
manual POST, returning the outcome, the new system state and the trace
of store calls. -/
def watchSys (staffRoles : List Nat) (σ : Sys) (actorId : Nat) (user : UserArg)
    (reason ts : String) (net : NetWatch) :
    WatchResult × Sys × List StoreCall :=
  if user.isBot then
    (.refusedBot, σ, [])
  else if isStaff staffRoles user then
    (.refusedStaff, σ, [])
  else if !net.refreshOk then
    (.cacheRefreshFailed, σ, [.listActiveAll])
  else
    let cache1 := refreshedCache σ.store
    if Cache.contains cache1 user.id then
      (.alreadyWatched, { σ with cache := cache1 }, [.listActiveAll])
    else
      let calls := [StoreCall.listActiveAll,
                    StoreCall.createNomination actorId user.id reason]
      match net.create with
      | .ok =>
          let nrec := createdRecord σ actorId user reason ts
          let resp : CreateResponse :=
            { status := 201, bodyHasUserField := true, record := nrec }
          let out := watchCreateHandle cache1 user.id resp
          (out.1,
           { store := σ.store ++ [nrec], cache := out.2, nextId := σ.nextId + 1 },
           calls)
      | .err so hasU =>
          let resp : CreateResponse :=
            { status := 400 + so, bodyHasUserField := hasU,
              record := createdRecord σ actorId user reason ts }
          let out := watchCreateHandle cache1 user.id resp
          (out.1, { σ with cache := out.2 }, calls)

/-- The user-visible outcome of `unwatch_command`. -/
inductive UnwatchResult where
  /-- "The specified user does not have an active nomination." -/
  | noActiveNomination
  /-- The `[nomination] = active_nomination` destructuring raised
  `ValueError` because more than one record matched. -/
  | destructureError
  /-- An uncaught `ResponseCodeError` with this status. -/
  | httpError (status : Nat)
  /-- "Messages sent by ... will no longer be relayed." -/
  | unwatched
deriving DecidableEq, Repr

/-- Network oracle for one `unwatch_command` invocation: `none` means
the call succeeds, `some s` that the API client raises a
`ResponseCodeError` with status `s`. -/
structure NetUnwatch where
  listErr : Option Nat
  patchErr : Option Nat
deriving DecidableEq, Repr

/-- `unwatch_command` (talentpool.py lines 129-153): GET the active
nominations filtered by user id; zero matches is a no-op notice; the
single match is PATCHed with `{end_reason: reason, active: False}`; on
success the confirmation is sent and the user is evicted from the
cache.  More than one match makes the destructuring raise. -/
def unwatchSys (σ : Sys) (user : UserArg) (reason : String) (net : NetUnwatch) :
    UnwatchResult × Sys × List StoreCall :=
  match net.listErr with
  | some s => (.httpError s, σ, [.listActiveFor user.id])
  | none =>
    match σ.store.filter (fun n => n.active && n.user == user.id) with
    | [] => (.noActiveNomination, σ, [.listActiveFor user.id])
    | [nomination] =>
      let calls := [StoreCall.listActiveFor user.id,
                    StoreCall.patchFields nomination.id
                      [.endReasonField reason, .activeField false]]
      match net.patchErr with
      | some s => (.httpError s, σ, calls)
      | none =>
        let store2 := σ.store.map (fun n =>
          if n.id == nomination.id then
            { n with active := false, endReason := reason }
          else n)
        (.unwatched,
         { σ with store := store2, cache := Cache.remove σ.cache user.id },
         calls)
    | _ => (.destructureError, σ, [.listActiveFor user.id])

/-- The user-visible outcome of `edit_reason_command`. -/
inductive EditResult where
  /-- "Can't find a nomination with id ..." -/
  | notFound
  /-- An uncaught `ResponseCodeError` with this status. -/
  | httpError (status : Nat)
  /-- "Updated the (reason or end_reason) of the nomination!" -/
  | edited
deriving DecidableEq, Repr

/-- Network oracle for one `edit_reason_command` invocation: `fetchErr`
is a network-level error for the GET (a genuinely unknown id yields a
404 from the store itself, spec section 6); `patchErr` likewise for the
PATCH. -/
structure NetEdit where
  fetchErr : Option Nat
  patchErr : Option Nat
deriving DecidableEq, Repr

/-- `edit_reason_command` (talentpool.py lines 163-189): GET the
nomination by id; a 404 is the soft "can't find" outcome, any other
`ResponseCodeError` re-raises.  The PATCH targets `reason` when the
fetched record is active, `end_reason` otherwise. -/
def editSys (σ : Sys) (nominationId : Nat) (reason : String) (net : NetEdit) :
    EditResult × Sys × List StoreCall :=
  match net.fetchErr with
  | some s =>
    if s == 404 then (.notFound, σ, [.fetchById nominationId])
    else (.httpError s, σ, [.fetchById nominationId])
  | none =>
    match σ.store.find? (fun n => n.id == nominationId) with
    | none => (.notFound, σ, [.fetchById nominationId])
    | some nomination =>
      let field : PatchField :=
        if nomination.active then .reasonField reason else .endReasonField reason
      let calls := [StoreCall.fetchById nominationId,
                    StoreCall.patchFields nominationId [field]]
      match net.patchErr with
      | some s => (.httpError s, σ, calls)
      | none =>
        let store2 := σ.store.map (fun n =>
          if n.id == nominationId then
            (if nomination.active then { n with reason := reason }
             else { n with endReason := reason })
          else n)
        (.edited, { σ with store := store2 }, calls)

/-- Python's `str.strip()`: remove leading and trailing whitespace. -/
def pyStrip (s : String) : String :=
  ⟨((s.data.dropWhile Char.isWhitespace).reverse.dropWhile Char.isWhitespace).reverse⟩

/-- `_nomination_to_string` (talentpool.py lines 191-232).  `guildMember`
is `guild.get_member`: it yields the mention string of the actor when
the actor is currently a member of the guild, and `none` otherwise, in
which case the raw actor id is printed.  `fmt` is
`bot.utils.time.format_infraction`, outside this excerpt.  The Python
f-string is written here after `textwrap.dedent`; the final
`.strip()` is `pyStrip`. -/
def nominationToString (fmt : String → String) (guildMember : Nat → Option String)
    (n : Nomination) : String :=
  let actorText : String :=
    match guildMember n.actor with
    | some mention => mention
    | none => toString n.actor
  let startDate := fmt n.insertedAt
  let lines : String :=
    if n.active then
      "\n===============\nStatus: **Active**\nDate: " ++ startDate ++
      "\nActor: " ++ actorText ++
      "\nReason: " ++ n.reason ++
      "\nNomination ID: `" ++ toString n.id ++ "`\n===============\n"
    else
      let endDate := fmt n.endedAt
      "\n===============\nStatus: Inactive\nDate: " ++ startDate ++
      "\nActor: " ++ actorText ++
      "\nReason: " ++ n.reason ++
      "\n\nEnd date: " ++ endDate ++
      "\nUnwatch reason: " ++ n.endReason ++
      "\nNomination ID: `" ++ toString n.id ++ "`\n===============\n"
  pyStrip lines

end TalentPool

namespace Site

/-- The outcome of the `site rules` command (site.py lines 97-127). -/
inductive RulesOutcome where
  /-- No indices given: the default description embed is sent. -/
  | defaultDescription
  /-- ":x: Invalid rule indices ..." listing these indices. -/
  | invalidIndices (indices : List Int)
  /-- The paginated rule lines. -/
  | paginated (lines : List String)
deriving DecidableEq, Repr

/-- `pick < 0 or pick >= len(full_rules)` (site.py line 117). -/
def ruleOutOfRange (fullLen : Nat) (pick : Int) : Bool :=
  pick < 0 || (fullLen : Int) ≤ pick

/-- `site_rules` (site.py lines 97-127): with no indices, the default
description; otherwise the rules are fetched and any out-of-range
indices abort with the invalid-indices message; otherwise each
requested rule is rendered and paginated. -/
def site_rules (picks : List Int) (full_rules : List String) : RulesOutcome :=
  if picks.isEmpty then
    .defaultDescription
  else
    let invalid_indices := picks.filter (fun p => ruleOutOfRange full_rules.length p)
    if !invalid_indices.isEmpty then
      .invalidIndices invalid_indices
    else
      .paginated (picks.map (fun p =>
        "**" ++ toString p ++ ".** " ++ ((full_rules.get? p.toNat).getD "")))

end Site

namespace TalentPool

/-! Helper lemmas about the cache. -/

theorem Cache.contains_insert (c : Cache) (uid : Nat) (n : Nomination) :
    Cache.contains (Cache.insert c uid n) uid = true := by
  unfold Cache.insert Cache.contains
  by_cases h : c.any (fun p => p.1 == uid) = true
  · simp only [h, if_true]
    rw [List.any_eq_true] at h ⊢
    obtain ⟨p, hp, hpe⟩ := h
    exact ⟨(uid, n), List.mem_map.mpr ⟨p, hp, by simp [hpe]⟩, by simp⟩
  · simp only [h, if_false, Bool.false_eq_true]
    simp [List.any_append]

theorem Cache.contains_remove (c : Cache) (uid : Nat) :
    Cache.contains (Cache.remove c uid) uid = false := by
  unfold Cache.contains Cache.remove
  rw [List.any_eq_false]
  intro p hp
  have hmem := List.of_mem_filter hp
  simp at hmem ⊢
  exact hmem

theorem contains_refreshed_append (store : List Nomination) (n : Nomination)
    (ha : n.active = true) :
    Cache.contains (refreshedCache (store ++ [n])) n.user = true := by
  simp [Cache.contains, refreshedCache, List.filter_append, List.any_append, ha]

/-! Concrete fixtures used by witnesses and counterexamples. -/

def plainUser : UserArg := ⟨42, false, false, []⟩

def botUser : UserArg := ⟨9, true, false, []⟩

def sysEmpty : Sys := ⟨[], [], 0⟩

def activeNom : Nomination := ⟨0, 42, 1, "r", true, "t0", "", ""⟩

def activeNom2 : Nomination := ⟨1, 42, 1, "r2", true, "t1", "", ""⟩

def sysWithActive : Sys := ⟨[activeNom], [], 1⟩

def sysDup : Sys := ⟨[activeNom, activeNom2], [], 2⟩

def sampleNomination : Nomination := ⟨3, 42, 7, "helpful", true, "2019-04-01", "", ""⟩

def guildWithActor : Nat → Option String := fun _ => some "<@7>"

def guildWithoutActor : Nat → Option String := fun _ => none

def guildActorOnly : Nat → Option String := fun k =>
  if k == 7 then some "<@7>" else none

end TalentPool

open TalentPool Site

/-- C1 (counterexample): the command body does not check for an empty
reason: invoked with `reason = ""` on a plain (non-bot, non-staff,
not-yet-watched) user, it refreshes the cache and issues the create
request — store calls are made and the outcome is success, not a
refusal. -/
theorem watch_empty_reason_counterexample :
    (watchSys [5] sysEmpty 1 plainUser "" "t" ⟨true, .ok⟩).2.2 =
      [.listActiveAll, .createNomination 1 42 ""] ∧
    (watchSys [5] sysEmpty 1 plainUser "" "t" ⟨true, .ok⟩).1 = .watched := by
  decide

/-- C1 (amended): when the target is a bot account or a guild member
holding a staff role, `watch_command` returns a user-visible refusal
before any store call is made — no cache refresh and no create request
— for any reason string including the empty one, leaving the state
unchanged.  (Empty-reason rejection is enforced upstream by the
required consume-rest `reason` parameter of the command signature, not
by the command body.) -/
theorem watch_policy_refusal (staffRoles : List Nat) (σ : Sys) (actorId : Nat)
    (user : UserArg) (reason ts : String) (net : NetWatch)
    (h : user.isBot = true ∨ isStaff staffRoles user = true) :
    ((watchSys staffRoles σ actorId user reason ts net).1 = .refusedBot ∨
     (watchSys staffRoles σ actorId user reason ts net).1 = .refusedStaff) ∧
    (watchSys staffRoles σ actorId user reason ts net).2.1 = σ ∧
    (watchSys staffRoles σ actorId user reason ts net).2.2 = [] := by
  rcases h with h | h
  · simp [watchSys, h]
  · cases hb : user.isBot
    · simp [watchSys, hb, h]
    · simp [watchSys, hb]

/-- C1 witness. -/
theorem watch_policy_refusal_witness :
    ((watchSys [5] sysEmpty 1 botUser "r" "t" ⟨true, .ok⟩).1 = .refusedBot ∨
     (watchSys [5] sysEmpty 1 botUser "r" "t" ⟨true, .ok⟩).1 = .refusedStaff) ∧
    (watchSys [5] sysEmpty 1 botUser "r" "t" ⟨true, .ok⟩).2.1 = sysEmpty ∧
    (watchSys [5] sysEmpty 1 botUser "r" "t" ⟨true, .ok⟩).2.2 = [] :=
  watch_policy_refusal [5] sysEmpty 1 botUser "r" "t" ⟨true, .ok⟩ (Or.inl rfl)

/-- C2: when the target passes the policy checks but the cache refresh
fails, `watch_command` aborts with the user-visible refresh error, the
only store call in the trace is the refresh itself (no create request),
and the system state — in particular the cache — is unchanged. -/
theorem watch_refresh_failure (staffRoles : List Nat) (σ : Sys) (actorId : Nat)
    (user : UserArg) (reason ts : String) (create : CreateNet)
    (hb : user.isBot = false) (hs : isStaff staffRoles user = false) :
    watchSys staffRoles σ actorId user reason ts ⟨false, create⟩ =
      (.cacheRefreshFailed, σ, [.listActiveAll]) := by
  simp [watchSys, hb, hs]

/-- C2 witness. -/
theorem watch_refresh_failure_witness :
    watchSys [5] sysEmpty 1 plainUser "r" "t" ⟨false, .ok⟩ =
      (.cacheRefreshFailed, sysEmpty, [.listActiveAll]) :=
  watch_refresh_failure [5] sysEmpty 1 plainUser "r" "t" .ok rfl rfl

/-- C3: a successful `watch_command` (policy checks pass, the user has
no active nomination, refresh and create succeed) reports success and
inserts the record returned by the store into the cache under the
user's id; a subsequent `watch_command` for the same user whose refresh
succeeds is rejected with the already-watched conflict notice and its
trace holds only the cache refresh — no second create request. -/
theorem watch_then_rewatch (staffRoles : List Nat) (σ : Sys) (actorId : Nat)
    (user : UserArg) (reason ts : String) (actorId2 : Nat) (reason2 ts2 : String)
    (net2 : NetWatch)
    (hb : user.isBot = false) (hs : isStaff staffRoles user = false)
    (hnot : Cache.contains (refreshedCache σ.store) user.id = false)
    (h2 : net2.refreshOk = true) :
    (watchSys staffRoles σ actorId user reason ts ⟨true, .ok⟩).1 = .watched ∧
    Cache.contains
      (watchSys staffRoles σ actorId user reason ts ⟨true, .ok⟩).2.1.cache
      user.id = true ∧
    (watchSys staffRoles
      (watchSys staffRoles σ actorId user reason ts ⟨true, .ok⟩).2.1
      actorId2 user reason2 ts2 net2).1 = .alreadyWatched ∧
    (watchSys staffRoles
      (watchSys staffRoles σ actorId user reason ts ⟨true, .ok⟩).2.1
      actorId2 user reason2 ts2 net2).2.2 = [.listActiveAll] := by
  have e1 : watchSys staffRoles σ actorId user reason ts ⟨true, .ok⟩ =
      (.watched,
       ⟨σ.store ++ [createdRecord σ actorId user reason ts],
        Cache.insert (refreshedCache σ.store) user.id
          (createdRecord σ actorId user reason ts),
        σ.nextId + 1⟩,
       [.listActiveAll, .createNomination actorId user.id reason]) := by
    simp [watchSys, watchCreateHandle, hb, hs, hnot]
  have hcontains : Cache.contains
      (refreshedCache (σ.store ++ [createdRecord σ actorId user reason ts]))
      user.id = true := by
    have := contains_refreshed_append σ.store
      (createdRecord σ actorId user reason ts) rfl
    simpa [createdRecord] using this
  refine ⟨by rw [e1], ?_, ?_, ?_⟩
  · rw [e1]
    exact Cache.contains_insert _ _ _
  · rw [e1]
    simp [watchSys, hb, hs, h2, hcontains]
  · rw [e1]
    simp [watchSys, hb, hs, h2, hcontains]

/-- C3 witness. -/
theorem watch_then_rewatch_witness :
    (watchSys [5] sysEmpty 1 plainUser "r" "t" ⟨true, .ok⟩).1 = .watched ∧
    Cache.contains
      (watchSys [5] sysEmpty 1 plainUser "r" "t" ⟨true, .ok⟩).2.1.cache 42 = true ∧
    (watchSys [5] (watchSys [5] sysEmpty 1 plainUser "r" "t" ⟨true, .ok⟩).2.1
      2 plainUser "r2" "t2" ⟨true, .ok⟩).1 = .alreadyWatched ∧
    (watchSys [5] (watchSys [5] sysEmpty 1 plainUser "r" "t" ⟨true, .ok⟩).2.1
      2 plainUser "r2" "t2" ⟨true, .ok⟩).2.2 = [.listActiveAll] :=
  watch_then_rewatch [5] sysEmpty 1 plainUser "r" "t" 2 "r2" "t2" ⟨true, .ok⟩
    rfl rfl rfl rfl

/-- C4: exactly two store failures are intercepted and turned into soft
user-visible outcomes — a create response with status 400 whose body
carries a user-field error (distinct "not found in database" message,
nothing inserted into the cache) and a 404 on the edit fetch (distinct
"can't find" message, no update issued) — while any other error status
re-raises as a hard failure; and neither operation ever retries: every
trace holds at most one create request and at most one fetch-by-id. -/
theorem store_failure_interception :
    (∀ (staffRoles : List Nat) (σ : Sys) (actorId : Nat) (user : UserArg)
       (reason ts : String),
      user.isBot = false → isStaff staffRoles user = false →
      Cache.contains (refreshedCache σ.store) user.id = false →
      (watchSys staffRoles σ actorId user reason ts ⟨true, .err 0 true⟩).1 =
        .userNotFoundInDb ∧
      Cache.contains
        (watchSys staffRoles σ actorId user reason ts ⟨true, .err 0 true⟩).2.1.cache
        user.id = false) ∧
    (∀ (staffRoles : List Nat) (σ : Sys) (actorId : Nat) (user : UserArg)
       (reason ts : String) (so : Nat) (hasU : Bool),
      user.isBot = false → isStaff staffRoles user = false →
      Cache.contains (refreshedCache σ.store) user.id = false →
      ¬(so = 0 ∧ hasU = true) →
      (watchSys staffRoles σ actorId user reason ts ⟨true, .err so hasU⟩).1 =
        .httpError (400 + so)) ∧
    (∀ (σ : Sys) (nominationId : Nat) (reason : String) (patchErr : Option Nat),
      editSys σ nominationId reason ⟨some 404, patchErr⟩ =
        (.notFound, σ, [.fetchById nominationId])) ∧
    (∀ (σ : Sys) (nominationId : Nat) (reason : String) (s : Nat)
       (patchErr : Option Nat),
      s ≠ 404 →
      editSys σ nominationId reason ⟨some s, patchErr⟩ =
        (.httpError s, σ, [.fetchById nominationId])) ∧
    (∀ (staffRoles : List Nat) (σ : Sys) (actorId : Nat) (user : UserArg)
       (reason ts : String) (net : NetWatch),
      ((watchSys staffRoles σ actorId user reason ts net).2.2.countP
        (fun c => c.isCreate)) ≤ 1) ∧
    (∀ (σ : Sys) (nominationId : Nat) (reason : String) (net : NetEdit),
      ((editSys σ nominationId reason net).2.2.countP
        (fun c => c.isFetch)) ≤ 1) := by
  refine ⟨?_, ?_, ?_, ?_, ?_, ?_⟩
  · intro staffRoles σ actorId user reason ts hb hs hnot
    constructor
    · simp [watchSys, watchCreateHandle, hb, hs, hnot]
    · simp [watchSys, watchCreateHandle, hb, hs, hnot]
  · intro staffRoles σ actorId user reason ts so hasU hb hs hnot h
    have hcond : ((400 + so == 400) && hasU) = false := by
      cases hasU
      · simp
      · simp only [Bool.and_true, beq_eq_false_iff_ne, ne_eq]
        intro hh
        exact h ⟨by omega, rfl⟩
    simp [watchSys, watchCreateHandle, hb, hs, hnot, hcond, Nat.le_add_right]
  · intro σ nominationId reason patchErr
    simp [editSys]
  · intro σ nominationId reason s patchErr hs
    simp [editSys, hs]
  · intro staffRoles σ actorId user reason ts net
    unfold watchSys
    rcases net with ⟨refreshOk, create⟩
    cases user.isBot
    · cases hst : isStaff staffRoles user
      · cases refreshOk
        · simp [List.countP_cons, StoreCall.isCreate]
        · by_cases hc : Cache.contains (refreshedCache σ.store) user.id = true
          · simp [hc, List.countP_cons, StoreCall.isCreate]
          · cases create <;>
              simp [hc, watchCreateHandle, List.countP_cons, StoreCall.isCreate]
      · simp [hst, List.countP_cons, StoreCall.isCreate]
    · simp [List.countP_cons, StoreCall.isCreate]
  · intro σ nominationId reason net
    unfold editSys
    rcases net with ⟨fetchErr, patchErr⟩
    cases fetchErr
    · cases hf : σ.store.find? (fun n => n.id == nominationId)
      · simp [hf, List.countP_cons, StoreCall.isFetch]
      · cases patchErr <;>
          simp [hf, List.countP_cons, StoreCall.isFetch]
    · simp [List.countP_cons, StoreCall.isFetch]
      split <;> simp [List.countP_cons, StoreCall.isFetch]

/-- C4 witness. -/
theorem store_failure_interception_witness :
    (watchSys [5] sysEmpty 1 plainUser "r" "t" ⟨true, .err 0 true⟩).1 =
      .userNotFoundInDb ∧
    (watchSys [5] sysEmpty 1 plainUser "r" "t" ⟨true, .err 99 false⟩).1 =
      .httpError 499 ∧
    editSys sysEmpty 7 "r" ⟨some 404, none⟩ = (.notFound, sysEmpty, [.fetchById 7]) ∧
    editSys sysEmpty 7 "r" ⟨some 500, none⟩ =
      (.httpError 500, sysEmpty, [.fetchById 7]) := by
  refine ⟨(store_failure_interception.1 [5] sysEmpty 1 plainUser "r" "t"
      rfl rfl rfl).1, ?_, ?_, ?_⟩
  · have := store_failure_interception.2.1 [5] sysEmpty 1 plainUser "r" "t" 99 false
      rfl rfl rfl (by simp)
    simpa using this
  · exact store_failure_interception.2.2.1 sysEmpty 7 "r" none
  · exact store_failure_interception.2.2.2.1 sysEmpty 7 "r" 500 none (by decide)

/-- C5: with exactly one active nomination for the user,
`unwatch_command` issues the update setting `end_reason` and
`active = false`; if the update fails the operation aborts with the
state — cache included — exactly as before, so the user is still
tracked; only when the update succeeds is the user evicted from the
cache. -/
theorem unwatch_patch_ordering (σ : Sys) (user : UserArg) (reason : String)
    (nom : Nomination)
    (hone : σ.store.filter (fun n => n.active && n.user == user.id) = [nom]) :
    (∀ s, unwatchSys σ user reason ⟨none, some s⟩ =
        (.httpError s, σ,
         [.listActiveFor user.id,
          .patchFields nom.id [.endReasonField reason, .activeField false]])) ∧
    ((unwatchSys σ user reason ⟨none, none⟩).1 = .unwatched ∧
     (unwatchSys σ user reason ⟨none, none⟩).2.1.cache =
       Cache.remove σ.cache user.id ∧
     Cache.contains (unwatchSys σ user reason ⟨none, none⟩).2.1.cache user.id =
       false ∧
     (unwatchSys σ user reason ⟨none, none⟩).2.2 =
       [.listActiveFor user.id,
        .patchFields nom.id [.endReasonField reason, .activeField false]]) := by
  refine ⟨?_, ?_, ?_, ?_, ?_⟩
  · intro s
    simp [unwatchSys, hone]
  · simp [unwatchSys, hone]
  · simp [unwatchSys, hone]
  · simp [unwatchSys, hone, Cache.contains_remove]
  · simp [unwatchSys, hone]

/-- C5 witness. -/
theorem unwatch_patch_ordering_witness :
    unwatchSys sysWithActive plainUser "done" ⟨none, some 500⟩ =
      (.httpError 500, sysWithActive,
       [.listActiveFor 42,
        .patchFields 0 [.endReasonField "done", .activeField false]]) ∧
    (unwatchSys sysWithActive plainUser "done" ⟨none, none⟩).1 = .unwatched ∧
    Cache.contains (unwatchSys sysWithActive plainUser "done" ⟨none, none⟩).2.1.cache
      42 = false :=
  ⟨(unwatch_patch_ordering sysWithActive plainUser "done" activeNom (by decide)).1 500,
   (unwatch_patch_ordering sysWithActive plainUser "done" activeNom (by decide)).2.1,
   (unwatch_patch_ordering sysWithActive plainUser "done" activeNom
      (by decide)).2.2.2.1⟩

/-- C6: when the store query for the user's active nomination returns
zero records, `unwatch_command` reports the "no active nomination"
no-op notice, its trace holds only the query — no update call — and
the system state is unchanged. -/
theorem unwatch_no_active_noop (σ : Sys) (user : UserArg) (reason : String)
    (patchErr : Option Nat)
    (hnone : σ.store.filter (fun n => n.active && n.user == user.id) = []) :
    unwatchSys σ user reason ⟨none, patchErr⟩ =
      (.noActiveNomination, σ, [.listActiveFor user.id]) := by
  simp [unwatchSys, hnone]

/-- C6 witness. -/
theorem unwatch_no_active_noop_witness :
    unwatchSys sysEmpty plainUser "done" ⟨none, none⟩ =
      (.noActiveNomination, sysEmpty, [.listActiveFor 42]) :=
  unwatch_no_active_noop sysEmpty plainUser "done" none rfl

/-- C7: when the store query returns more than one matching active
nomination, the `[nomination] = active_nomination` destructuring raises
— a hard failure — with no update call in the trace and the state,
cache included, unchanged: the user is not evicted and no record is
silently picked. -/
theorem unwatch_multiple_matches (σ : Sys) (user : UserArg) (reason : String)
    (net : NetUnwatch) (n1 n2 : Nomination) (rest : List Nomination)
    (hl : net.listErr = none)
    (hmulti : σ.store.filter (fun n => n.active && n.user == user.id) =
      n1 :: n2 :: rest) :
    unwatchSys σ user reason net = (.destructureError, σ, [.listActiveFor user.id]) := by
  rcases net with ⟨listErr, patchErr⟩
  simp only at hl
  subst hl
  simp [unwatchSys, hmulti]

/-- C7 witness. -/
theorem unwatch_multiple_matches_witness :
    unwatchSys sysDup plainUser "done" ⟨none, none⟩ =
      (.destructureError, sysDup, [.listActiveFor 42]) :=
  unwatch_multiple_matches sysDup plainUser "done" ⟨none, none⟩
    activeNom activeNom2 [] rfl (by decide)

/-- C8: when the edit fetch succeeds, the update sent to the store
carries exactly one field: `reason` if the fetched record is active,
`end_reason` if it is not — never both. -/
theorem edit_field_selection (σ : Sys) (nominationId : Nat) (reason : String)
    (patchErr : Option Nat) (nom : Nomination)
    (hfind : σ.store.find? (fun n => n.id == nominationId) = some nom) :
    (editSys σ nominationId reason ⟨none, patchErr⟩).2.2 =
      [.fetchById nominationId,
       .patchFields nominationId
         [if nom.active then PatchField.reasonField reason
          else PatchField.endReasonField reason]] ∧
    (nom.active = true →
      (editSys σ nominationId reason ⟨none, patchErr⟩).2.2 =
        [.fetchById nominationId,
         .patchFields nominationId [.reasonField reason]]) ∧
    (nom.active = false →
      (editSys σ nominationId reason ⟨none, patchErr⟩).2.2 =
        [.fetchById nominationId,
         .patchFields nominationId [.endReasonField reason]]) := by
  refine ⟨?_, fun ha => ?_, fun ha => ?_⟩
  · cases patchErr <;> simp [editSys, hfind]
  · cases patchErr <;> simp [editSys, hfind, ha]
  · cases patchErr <;> simp [editSys, hfind, ha]

/-- C8 witness. -/
theorem edit_field_selection_witness :
    (editSys sysWithActive 0 "new" ⟨none, none⟩).2.2 =
      [.fetchById 0, .patchFields 0 [.reasonField "new"]] :=
  (edit_field_selection sysWithActive 0 "new" none activeNom (by decide)).2.1 rfl

/-- C9 (counterexample): `_nomination_to_string` is not a function of
the record alone: it consults `guild.get_member(actor_id)`, so the same
record renders differently depending on whether the actor is currently
a guild member (mention) or not (raw id). -/
theorem render_record_alone_counterexample :
    nominationToString (fun s => s) guildWithActor sampleNomination ≠
      nominationToString (fun s => s) guildWithoutActor sampleNomination := by
  decide

/-- C9 (amended): rendering a nomination is a pure function of the
record and the guild's resolution of the record's actor: two renderings
of the same record for which the guild member lookup of the actor
agrees produce the same string, and rendering is modelled as a pure
function — it makes no store calls and has no side effects. -/
theorem render_pure_of_actor_lookup (fmt : String → String)
    (g g2 : Nat → Option String) (n : Nomination)
    (h : g n.actor = g2 n.actor) :
    nominationToString fmt g n = nominationToString fmt g2 n := by
  unfold nominationToString
  rw [h]

/-- C9 witness. -/
theorem render_pure_of_actor_lookup_witness :
    nominationToString (fun s => s) guildWithActor sampleNomination =
      nominationToString (fun s => s) guildActorOnly sampleNomination :=
  render_pure_of_actor_lookup (fun s => s) guildWithActor guildActorOnly
    sampleNomination rfl

/-- C10: in the site-rules command, if any requested index is negative
or not below the number of fetched rules, the command reports exactly
the out-of-range indices and performs no pagination; when no index is
out of range every requested index satisfies the bounds under which the
rules list is accessed, so no out-of-range access can occur, and the
requested rules are paginated. -/
theorem site_rules_index_safety :
    (∀ (picks : List Int) (full_rules : List String) (p : Int),
      p ∈ picks → ruleOutOfRange full_rules.length p = true →
      site_rules picks full_rules =
        .invalidIndices (picks.filter (fun q => ruleOutOfRange full_rules.length q))) ∧
    (∀ (picks : List Int) (full_rules : List String),
      picks.filter (fun q => ruleOutOfRange full_rules.length q) = [] →
      ∀ p ∈ picks, 0 ≤ p ∧ p.toNat < full_rules.length) ∧
    (∀ (picks : List Int) (full_rules : List String),
      picks ≠ [] →
      picks.filter (fun q => ruleOutOfRange full_rules.length q) = [] →
      site_rules picks full_rules =
        .paginated (picks.map (fun p =>
          "**" ++ toString p ++ ".** " ++ ((full_rules.get? p.toNat).getD "")))) := by
  refine ⟨?_, ?_, ?_⟩
  · intro picks full_rules p hp hoob
    have hne : picks.isEmpty = false := by
      cases picks
      · cases hp
      · rfl
    have hfil : (picks.filter (fun q => ruleOutOfRange full_rules.length q)).isEmpty
        = false := by
      have hmem : p ∈ picks.filter (fun q => ruleOutOfRange full_rules.length q) :=
        List.mem_filter.mpr ⟨hp, hoob⟩
      cases hfe : picks.filter (fun q => ruleOutOfRange full_rules.length q)
      · rw [hfe] at hmem
        cases hmem
      · rfl
    simp [site_rules, hne, hfil]
  · intro picks full_rules hfil p hp
    have hoob : ruleOutOfRange full_rules.length p = false := by
      by_contra hc
      have : p ∈ picks.filter (fun q => ruleOutOfRange full_rules.length q) :=
        List.mem_filter.mpr ⟨hp, by revert hc; cases ruleOutOfRange full_rules.length p <;> simp⟩
      rw [hfil] at this
      cases this
    unfold ruleOutOfRange at hoob
    rw [Bool.or_eq_false_iff] at hoob
    obtain ⟨h1, h2⟩ := hoob
    rw [decide_eq_false_iff_not] at h1 h2
    constructor
    · omega
    · omega
  · intro picks full_rules hne hfil
    have hne2 : picks.isEmpty = false := by
      cases picks
      · exact absurd rfl hne
      · rfl
    simp [site_rules, hne2, hfil]

/-- C10 witness. -/
theorem site_rules_index_safety_witness :
    site_rules [0, 5] ["a", "b"] = .invalidIndices [5] ∧
    (0 ≤ (1 : Int) ∧ (1 : Int).toNat < 2) ∧
    site_rules [1] ["a", "b"] = .paginated ["**1.** b"] := by
  refine ⟨?_, ?_, ?_⟩
  · exact (site_rules_index_safety.1 [0, 5] ["a", "b"] 5 (by decide)
      (by decide)).trans (by decide)
  · exact site_rules_index_safety.2.1 [1] ["a", "b"] (by decide) 1 (by decide)
  · exact (site_rules_index_safety.2.2 [1] ["a", "b"] (by decide)
      (by decide)).trans (by decide)
